import Mathlib

/-!
# Verification of the `RealtimeVoiceClient` session protocol client

Shallow embedding of `client/src/services/RealtimeVoiceClient.ts`: the
connection manager's state machine (`connect`, `disconnect`), the outbound
send operations (`sendText`, `sendToolResult`), and the inbound control
channel dispatch (`handleRealtimeMessage`, the data channel `onmessage`
handler).

Platform primitives (`JSON.parse`, `getUserMedia`, `fetch`, WebRTC object
construction) are modelled as explicit parameters/environments: the results
the awaited calls would produce are supplied up front, and the embedding
computes the resulting client state together with the list of callback
invocations, outbound wire messages, and media-element operations the
source code would perform.
-/

namespace RealtimeVoice

/-- A JSON value, as produced by `JSON.parse` on the inbound wire format and
consumed by `JSON.stringify` on the outbound one. -/
inductive JsonValue where
  | null : JsonValue
  | bool (b : Bool) : JsonValue
  | num (n : Int) : JsonValue
  | str (s : String) : JsonValue
  | arr (elems : List JsonValue) : JsonValue
  | obj (fields : List (String × JsonValue)) : JsonValue
deriving Repr

/-- The four values of the TypeScript `ConnectionState` union:
`'disconnected' | 'connecting' | 'connected' | 'error'`. -/
inductive ConnectionState where
  | disconnected
  | connecting
  | connected
  | error
deriving DecidableEq, Repr

/-- Role of a transcript entry, the second argument of `onTranscript`. -/
inductive Role where
  | user
  | assistant
deriving DecidableEq, Repr

/-- Which optional callbacks are installed in `RealtimeVoiceConfig`
(the source guards every invocation by `if (this.config.onXxx)`), plus the
config fields the lifecycle methods read. -/
structure Config where
  hasOnConnectionStateChange : Bool
  hasOnTranscript : Bool
  hasOnTranscriptChunk : Bool
  hasOnUserTranscript : Bool
  hasOnResponseStart : Bool
  hasOnError : Bool
  hasOnToolCall : Bool
  hasOnMicrophoneLevel : Bool
  hasOnMicrophoneSpectrum : Bool
  hasOnPlaybackLevel : Bool
  hasOnPlaybackSpectrum : Bool
deriving Repr

/-- An `RTCDataChannel`: an identity and its `readyState` string. -/
structure DataChannel where
  id : Nat
  readyState : String
deriving DecidableEq, Repr

/-- The playback `HTMLAudioElement`: paused flag, attached `srcObject`
(identified by a stream id), and `muted` flag. -/
structure AudioElement where
  paused : Bool
  srcObject : Option Nat
  muted : Bool
deriving DecidableEq, Repr

/-- The mutable private fields of class `RealtimeVoiceClient`. Resource
handles (`MediaStream`, `RTCPeerConnection`, analysis nodes, animation
frame) are identified by `Nat` ids; `none` is the TypeScript `null`. -/
structure ClientState where
  peerConnection : Option Nat
  dataChannel : Option DataChannel
  localStream : Option Nat
  audioElement : Option AudioElement
  connectionState : ConnectionState
  microphoneMuted : Bool
  playbackMuted : Bool
  audioContext : Option Nat
  inputAnalyser : Option Nat
  outputAnalyser : Option Nat
  animationFrameId : Option Nat
  conversationId : Option String
deriving Repr

/-- Field initializers of `RealtimeVoiceClient`: every handle `null`,
`connectionState = 'disconnected'`, both mute flags `false`. -/
def initialClientState : ClientState where
  peerConnection := none
  dataChannel := none
  localStream := none
  audioElement := none
  connectionState := ConnectionState.disconnected
  microphoneMuted := false
  playbackMuted := false
  audioContext := none
  inputAnalyser := none
  outputAnalyser := none
  animationFrameId := none
  conversationId := none

/-- One invocation of a configured callback. -/
inductive CallbackEvent where
  | connectionStateChange (st : ConnectionState)
  | transcript (text : String) (role : Role)
  | transcriptChunk (chunk : String)
  | userTranscript (text : String)
  | responseStart
  | errorNote (msg : String)
  | toolCall (callId : String) (name : String) (args : JsonValue)
deriving Repr

/-- One operation performed on the playback `HTMLAudioElement`. -/
inductive MediaEffect where
  | pauseAudio
  | setSrcObject (v : Option Nat)
deriving DecidableEq, Repr

/-- JavaScript truthiness of an optional string field: absent (`undefined`)
and the empty string are falsy. -/
def strTruthy : Option String → Bool
  | none => false
  | some s => !s.isEmpty

/-- `updateConnectionState(state)`: store the state and invoke
`onConnectionStateChange` when configured. -/
def updateConnectionState (cfg : Config) (s : ClientState) (st : ConnectionState) :
    ClientState × List CallbackEvent :=
  ({ s with connectionState := st },
   if cfg.hasOnConnectionStateChange then [CallbackEvent.connectionStateChange st] else [])

/-- `handleError(error)`: log (elided) and invoke `onError` when configured. -/
def handleError (cfg : Config) (msg : String) : List CallbackEvent :=
  if cfg.hasOnError then [CallbackEvent.errorNote msg] else []

/-- The guard `this.dataChannel && this.dataChannel.readyState === 'open'`. -/
def channelOpen (s : ClientState) : Bool :=
  match s.dataChannel with
  | none => false
  | some dc => dc.readyState == "open"

/-- `stopPlayback()`: pause the playback element, then detach
(`srcObject = null`) and immediately reattach its current media source.
Returns the updated state and the ordered element operations performed. -/
def stopPlayback (s : ClientState) : ClientState × List MediaEffect :=
  match s.audioElement with
  | none => (s, [])
  | some el =>
    let el1 : AudioElement := { el with paused := true }
    match el1.srcObject with
    | none => ({ s with audioElement := some el1 }, [MediaEffect.pauseAudio])
    | some src =>
      ({ s with audioElement := some { el1 with srcObject := some src } },
       [MediaEffect.pauseAudio, MediaEffect.setSrcObject none,
        MediaEffect.setSrcObject (some src)])

/-- `message.item` as read by `handleRealtimeMessage`: its `role` and its
`formatted?.transcript`. -/
structure MsgItem where
  role : Option String
  formattedTranscript : Option String
deriving Repr

/-- An inbound control-channel message, holding exactly the fields
`handleRealtimeMessage` reads; `none` models an absent/undefined field. -/
structure InboundMessage where
  type : String
  item : Option MsgItem
  transcript : Option String
  delta : Option String
  callId : Option String
  name : Option String
  arguments : Option String
  errorMessage : Option String
deriving Repr

/-- An inbound message with every payload field absent. -/
def bareMessage (ty : String) : InboundMessage where
  type := ty
  item := none
  transcript := none
  delta := none
  callId := none
  name := none
  arguments := none
  errorMessage := none

/-- The tool-call arguments computed at
`response.function_call_arguments.done`: `args` starts as `{}` and becomes
`JSON.parse(message.arguments)` only when the field is truthy and the parse
does not throw (`pj a = none` models a thrown parse error, caught by the
source's `try/catch`). -/
def toolArgs (pj : String → Option JsonValue) (o : Option String) : JsonValue :=
  match o with
  | none => JsonValue.obj []
  | some a =>
    if a.isEmpty then JsonValue.obj []
    else
      match pj a with
      | some v => v
      | none => JsonValue.obj []

/-- Result of handling one inbound event: new state, callback invocations in
order, and playback-element operations in order. -/
structure HandleResult where
  state : ClientState
  callbacks : List CallbackEvent
  media : List MediaEffect
deriving Repr

/-- `handleRealtimeMessage(message)`: the `switch (message.type)` dispatch,
case by case in source order; a `type` matching no case falls through with
no effect. -/
def handleRealtimeMessage (pj : String → Option JsonValue) (cfg : Config)
    (s : ClientState) (m : InboundMessage) : HandleResult :=
  if m.type == "session.created" || m.type == "session.updated" then
    if s.connectionState = ConnectionState.connecting then
      let p := updateConnectionState cfg s ConnectionState.connected
      ⟨p.1, p.2, []⟩
    else ⟨s, [], []⟩
  else if m.type == "conversation.item.created" then
    let startEvs :=
      match m.item with
      | some it =>
        if it.role == some "assistant" && cfg.hasOnResponseStart then
          [CallbackEvent.responseStart]
        else []
      | none => []
    let userEvs :=
      match m.item with
      | some it =>
        if it.role == some "user" && strTruthy it.formattedTranscript then
          let t := it.formattedTranscript.getD ""
          (if cfg.hasOnUserTranscript then [CallbackEvent.userTranscript t] else []) ++
          (if cfg.hasOnTranscript then [CallbackEvent.transcript t Role.user] else [])
        else []
      | none => []
    ⟨s, startEvs ++ userEvs, []⟩
  else if m.type == "conversation.item.input_audio_transcription.completed" then
    if strTruthy m.transcript then
      let t := m.transcript.getD ""
      ⟨s, (if cfg.hasOnUserTranscript then [CallbackEvent.userTranscript t] else []) ++
          (if cfg.hasOnTranscript then [CallbackEvent.transcript t Role.user] else []), []⟩
    else ⟨s, [], []⟩
  else if m.type == "response.audio_transcript.delta" ||
          m.type == "response.output_audio_transcript.delta" then
    if cfg.hasOnTranscriptChunk && strTruthy m.delta then
      ⟨s, [CallbackEvent.transcriptChunk (m.delta.getD "")], []⟩
    else ⟨s, [], []⟩
  else if m.type == "response.audio_transcript.done" ||
          m.type == "response.output_audio_transcript.done" then
    if cfg.hasOnTranscript && strTruthy m.transcript then
      ⟨s, [CallbackEvent.transcript (m.transcript.getD "") Role.assistant], []⟩
    else ⟨s, [], []⟩
  else if m.type == "response.function_call_arguments.done" then
    if cfg.hasOnToolCall && strTruthy m.callId && strTruthy m.name then
      ⟨s, [CallbackEvent.toolCall (m.callId.getD "") (m.name.getD "")
            (toolArgs pj m.arguments)], []⟩
    else ⟨s, [], []⟩
  else if m.type == "input_audio_buffer.speech_started" ||
          m.type == "input_audio_buffer.speech_stopped" then
    ⟨s, [], []⟩
  else if m.type == "response.cancelled" || m.type == "response.interrupted" then
    let p := stopPlayback s
    ⟨p.1, [], p.2⟩
  else if m.type == "error" then
    ⟨s, handleError cfg
        (match m.errorMessage with
         | some msg => if msg.isEmpty then "Unknown error" else msg
         | none => "Unknown error"), []⟩
  else ⟨s, [], []⟩

/-- The `message.type` strings that name a `case` of the
`handleRealtimeMessage` switch. -/
def recognizedTypes : List String :=
  ["session.created", "session.updated", "conversation.item.created",
   "conversation.item.input_audio_transcription.completed",
   "response.audio_transcript.delta", "response.output_audio_transcript.delta",
   "response.audio_transcript.done", "response.output_audio_transcript.done",
   "response.function_call_arguments.done",
   "input_audio_buffer.speech_started", "input_audio_buffer.speech_stopped",
   "response.cancelled", "response.interrupted", "error"]

/-- The data channel `onmessage` handler installed by `setupDataChannel`:
`JSON.parse` the wire payload inside a `try/catch` (a failed parse — modelled
by the message decoder `pm` returning `none` — is caught and only logged),
then dispatch to `handleRealtimeMessage`. `pm` composes `JSON.parse` with the
projection onto the fields the dispatcher reads. -/
def onDataChannelMessage (pj : String → Option JsonValue)
    (pm : String → Option InboundMessage) (cfg : Config)
    (s : ClientState) (data : String) : HandleResult :=
  match pm data with
  | none => ⟨s, [], []⟩
  | some m => handleRealtimeMessage pj cfg s m

/-- The outbound `conversation.item.create` object built by `sendText`:
a user message carrying one `input_text` content part with the given text. -/
def userTextMessage (text : String) : JsonValue :=
  JsonValue.obj
    [("type", JsonValue.str "conversation.item.create"),
     ("item", JsonValue.obj
       [("type", JsonValue.str "message"),
        ("role", JsonValue.str "user"),
        ("content", JsonValue.arr
          [JsonValue.obj
            [("type", JsonValue.str "input_text"),
             ("text", JsonValue.str text)]])])]

/-- The outbound `response.create` trigger (no payload). -/
def responseCreateMessage : JsonValue :=
  JsonValue.obj [("type", JsonValue.str "response.create")]

/-- The outbound `conversation.item.create` object built by `sendToolResult`:
a `function_call_output` item correlated by `call_id`, whose `output` field is
the `JSON.stringify`-serialized result. -/
def toolResultMessage (callId : String) (output : String) : JsonValue :=
  JsonValue.obj
    [("type", JsonValue.str "conversation.item.create"),
     ("item", JsonValue.obj
       [("type", JsonValue.str "function_call_output"),
        ("call_id", JsonValue.str callId),
        ("output", JsonValue.str output)])]

/-- `sendJson(data)`: transmit only when the channel exists and is open;
otherwise silently do nothing. Returns the messages put on the wire. -/
def sendJson (s : ClientState) (m : JsonValue) : List JsonValue :=
  if channelOpen s then [m] else []

/-- Result of a public send operation: whether it threw, the client state
afterwards, the wire messages sent in order, and the callbacks invoked in
order. -/
structure SendResult where
  outcome : Except String Unit
  state : ClientState
  sent : List JsonValue
  callbacks : List CallbackEvent
deriving Repr

/-- `sendText(text)`: throw `'Data channel not open'` unless the data channel
exists with `readyState === 'open'`; otherwise send the user message and the
`response.create` trigger via `sendJson`, then invoke `onTranscript(text,
'user')` when configured, all before returning. -/
def sendText (cfg : Config) (s : ClientState) (text : String) : SendResult :=
  if !channelOpen s then
    ⟨Except.error "Data channel not open", s, [], []⟩
  else
    ⟨Except.ok (), s,
     sendJson s (userTextMessage text) ++ sendJson s responseCreateMessage,
     if cfg.hasOnTranscript then [CallbackEvent.transcript text Role.user] else []⟩

/-- `sendToolResult(callId, result)`: throw `'Data channel not open'` unless
the channel is open; otherwise send the correlated `function_call_output`
item (with `JSON.stringify result` as its `output`, `stringify` being the
platform serializer) followed by a `response.create` trigger. -/
def sendToolResult (stringify : JsonValue → String) (s : ClientState)
    (callId : String) (result : JsonValue) : SendResult :=
  if !channelOpen s then
    ⟨Except.error "Data channel not open", s, [], []⟩
  else
    ⟨Except.ok (), s,
     [toolResultMessage callId (stringify result), responseCreateMessage], []⟩

/-- `disconnect()`: release every held resource, each behind the source's
null check — cancel the animation frame, close the audio context (nulling
both analysers), stop and drop the local stream's tracks, stop the
transport's sender tracks and close it, pause/detach/drop the playback
element, close the data channel — then set state `'disconnected'`. -/
def disconnect (cfg : Config) (s : ClientState) : ClientState × List CallbackEvent :=
  let s := if s.animationFrameId.isSome then { s with animationFrameId := none } else s
  let s := if s.audioContext.isSome then
             { s with audioContext := none, inputAnalyser := none, outputAnalyser := none }
           else s
  let s := if s.localStream.isSome then { s with localStream := none } else s
  let s := if s.peerConnection.isSome then { s with peerConnection := none } else s
  let s := if s.audioElement.isSome then { s with audioElement := none } else s
  let s := if s.dataChannel.isSome then { s with dataChannel := none } else s
  updateConnectionState cfg s ConnectionState.disconnected

/-- The `oniceconnectionstatechange` handler installed by `connect`: promote
to `'connected'` when the transport's ICE state reads `'connected'`, drop to
`'error'` (and surface an error) when it reads `'failed'`. `ice` is
`this.peerConnection?.iceConnectionState` (`none` when the transport is
null). -/
def onIceConnectionStateChange (cfg : Config) (s : ClientState)
    (ice : Option String) : ClientState × List CallbackEvent :=
  if ice == some "connected" then
    updateConnectionState cfg s ConnectionState.connected
  else if ice == some "failed" then
    let p := updateConnectionState cfg s ConnectionState.error
    (p.1, p.2 ++ handleError cfg "ICE connection failed")
  else (s, [])

/-- `setupAudioAnalysis()`: open an `AudioContext`; when the local stream is
present and a microphone callback is configured, attach an input analyser and
start the sampling loop (recording an animation frame handle). -/
def setupAudioAnalysis (cfg : Config) (audioContextId inputAnalyserId frameId : Nat)
    (s : ClientState) : ClientState :=
  let s := { s with audioContext := some audioContextId }
  if s.localStream.isSome && (cfg.hasOnMicrophoneLevel || cfg.hasOnMicrophoneSpectrum) then
    { s with inputAnalyser := some inputAnalyserId, animationFrameId := some frameId }
  else s

/-- The outcomes of the awaited platform calls inside `connect`, supplied up
front: the token fetch, `getUserMedia`, the identities of the freshly
constructed WebRTC objects, the local offer, and the negotiation POST
(`Except.error status` is a non-2xx response). -/
structure ConnectEnv where
  tokenResult : Except String Unit
  micResult : Except String Nat
  audioContextId : Nat
  inputAnalyserId : Nat
  frameId : Nat
  newPeerConnectionId : Nat
  newDataChannelId : Nat
  offerSdp : String
  negotiationResult : Except Nat String
deriving Repr

/-- A side effect `connect` performs on the platform, in order. -/
inductive ConnectEffect where
  | fetchToken
  | getUserMedia
  | newPeerConnection (id : Nat)
  | createDataChannel (id : Nat)
  | postOffer (sdp : String)
  | setRemoteDescription (sdp : String)
deriving DecidableEq, Repr

/-- Result of a `connect()` call: resolution or rejection, the state at that
moment, the callbacks invoked, and the platform effects performed. -/
structure ConnectResult where
  outcome : Except String Unit
  state : ClientState
  callbacks : List CallbackEvent
  effects : List ConnectEffect
deriving Repr

/-- The `catch` block of `connect`: `handleError(error)`, then
`this.disconnect()`, then rethrow the original error. -/
def connectFail (cfg : Config) (s : ClientState) (evs : List CallbackEvent)
    (effs : List ConnectEffect) (msg : String) : ConnectResult :=
  let errEvs := handleError cfg msg
  let p := disconnect cfg s
  ⟨Except.error msg, p.1, evs ++ errEvs ++ p.2, effs⟩

/-- `connect(conversationId?)`, step by step in source order: store the
conversation id; set state `'connecting'`; fetch the ephemeral token; acquire
the microphone; set up audio analysis when a level/spectrum callback is
configured; construct the `RTCPeerConnection` (attaching tracks and the
`ontrack`/`oniceconnectionstatechange` handlers); create the data channel
(`readyState` starts `'connecting'`); create and POST the offer; apply the
returned answer. Any thrown step lands in `connectFail`. The function
resolves as soon as the remote description is applied — it performs no
further `updateConnectionState` call of its own. -/
def connect (cfg : Config) (env : ConnectEnv) (s0 : ClientState)
    (conversationId : Option String) : ConnectResult :=
  let s := { s0 with conversationId := conversationId }
  let p := updateConnectionState cfg s ConnectionState.connecting
  let s := p.1
  let evs := p.2
  match env.tokenResult with
  | Except.error e => connectFail cfg s evs [ConnectEffect.fetchToken] e
  | Except.ok () =>
    match env.micResult with
    | Except.error e =>
      connectFail cfg s evs [ConnectEffect.fetchToken, ConnectEffect.getUserMedia] e
    | Except.ok streamId =>
      let s := { s with localStream := some streamId }
      let s := if cfg.hasOnMicrophoneSpectrum || cfg.hasOnMicrophoneLevel ||
                  cfg.hasOnPlaybackSpectrum || cfg.hasOnPlaybackLevel then
                 setupAudioAnalysis cfg env.audioContextId env.inputAnalyserId env.frameId s
               else s
      let s := { s with peerConnection := some env.newPeerConnectionId }
      let s := { s with
                 dataChannel := some { id := env.newDataChannelId
                                       readyState := "connecting" } }
      let effs := [ConnectEffect.fetchToken, ConnectEffect.getUserMedia,
                   ConnectEffect.newPeerConnection env.newPeerConnectionId,
                   ConnectEffect.createDataChannel env.newDataChannelId,
                   ConnectEffect.postOffer env.offerSdp]
      match env.negotiationResult with
      | Except.error status =>
        connectFail cfg s evs effs ("Failed to connect: " ++ toString status)
      | Except.ok answerSdp =>
        ⟨Except.ok (), s, evs, effs ++ [ConnectEffect.setRemoteDescription answerSdp]⟩

/-! ## Concrete fixtures for witnesses and counterexamples -/

/-- A configuration with every optional callback installed. -/
def allCallbacksConfig : Config where
  hasOnConnectionStateChange := true
  hasOnTranscript := true
  hasOnTranscriptChunk := true
  hasOnUserTranscript := true
  hasOnResponseStart := true
  hasOnError := true
  hasOnToolCall := true
  hasOnMicrophoneLevel := true
  hasOnMicrophoneSpectrum := true
  hasOnPlaybackLevel := true
  hasOnPlaybackSpectrum := true

/-- An environment in which every awaited step of `connect` succeeds. -/
def okEnv : ConnectEnv where
  tokenResult := Except.ok ()
  micResult := Except.ok 1
  audioContextId := 10
  inputAnalyserId := 11
  frameId := 12
  newPeerConnectionId := 2
  newDataChannelId := 5
  offerSdp := "offer-sdp"
  negotiationResult := Except.ok "answer-sdp"

/-- An environment in which the credential fetch throws. -/
def failTokenEnv : ConnectEnv :=
  { okEnv with tokenResult := Except.error "Failed to fetch token: 500" }

/-- A client with a live connected session: open data channel, transport
`1`, microphone stream `1`, playback element attached to stream `7`. -/
def liveConnectedState : ClientState :=
  { initialClientState with
    connectionState := ConnectionState.connected
    peerConnection := some 1
    dataChannel := some { id := 1, readyState := "open" }
    localStream := some 1
    audioElement := some { paused := false, srcObject := some 7, muted := false } }

/-! ## Helper lemmas -/

/-- After `disconnect`, the state is `disconnected` and every resource
handle it releases is `none`, whatever the prior state. -/
theorem disconnect_releases (cfg : Config) (s : ClientState) :
    (disconnect cfg s).1.connectionState = ConnectionState.disconnected ∧
    (disconnect cfg s).1.localStream = none ∧
    (disconnect cfg s).1.peerConnection = none ∧
    (disconnect cfg s).1.dataChannel = none ∧
    (disconnect cfg s).1.audioContext = none ∧
    (disconnect cfg s).1.audioElement = none ∧
    (disconnect cfg s).1.animationFrameId = none := by
  obtain ⟨pc, dc, ls, ae, cs, mm, pmute, ac, ia, oa, af, cid⟩ := s
  unfold disconnect updateConnectionState
  cases af <;> cases ac <;> cases ls <;> cases pc <;> cases ae <;> cases dc <;> simp

/-! ## Claim theorems -/

/-- C4: `disconnect()` is idempotent and total: it is a total function of the
prior state (so it never throws), it always ends with `connectionState =
disconnected`, and calling it a second time returns exactly the same result
(state and callback invocations) as calling it once. -/
theorem disconnect_idempotent_total (cfg : Config) (s : ClientState) :
    disconnect cfg (disconnect cfg s).1 = disconnect cfg s ∧
    (disconnect cfg s).1.connectionState = ConnectionState.disconnected := by
  obtain ⟨pc, dc, ls, ae, cs, mm, pmute, ac, ia, oa, af, cid⟩ := s
  unfold disconnect updateConnectionState
  cases af <;> cases ac <;> cases ls <;> cases pc <;> cases ae <;> cases dc <;> simp

/-- C6: while the control channel is open and a transcript callback is
configured, `sendText t` succeeds, puts exactly the create-user-message
carrying `t` followed by the `response.create` trigger on the wire in that
order, and synchronously invokes the transcript callback with `(t, user)`
before returning — the result is fully determined with no network round
trip. -/
theorem sendText_sends_pair_and_echoes (cfg : Config) (s : ClientState) (t : String)
    (hopen : channelOpen s = true) (hcb : cfg.hasOnTranscript = true) :
    sendText cfg s t =
      ⟨Except.ok (), s, [userTextMessage t, responseCreateMessage],
       [CallbackEvent.transcript t Role.user]⟩ := by
  simp [sendText, sendJson, hopen, hcb]

/-- C6 witness: `sendText "hello"` on a live connected client. -/
theorem sendText_sends_pair_and_echoes_witness :
    sendText allCallbacksConfig liveConnectedState "hello" =
      ⟨Except.ok (), liveConnectedState,
       [userTextMessage "hello", responseCreateMessage],
       [CallbackEvent.transcript "hello" Role.user]⟩ :=
  sendText_sends_pair_and_echoes allCallbacksConfig liveConnectedState "hello" rfl rfl

/-- C7: with the control channel not open, both `sendText` and
`sendToolResult` throw `'Data channel not open'` and have no side effects:
nothing is sent, no callback fires, and the state is returned unchanged. -/
theorem send_closed_channel_no_side_effects (cfg : Config)
    (stringify : JsonValue → String) (s : ClientState)
    (t callId : String) (result : JsonValue)
    (hclosed : channelOpen s = false) :
    sendText cfg s t = ⟨Except.error "Data channel not open", s, [], []⟩ ∧
    sendToolResult stringify s callId result =
      ⟨Except.error "Data channel not open", s, [], []⟩ := by
  simp [sendText, sendToolResult, hclosed]

/-- C7 witness: `sendToolResult "call_1" {ok: true}` (and a `sendText`) on a
never-connected client, whose data channel is null. -/
theorem send_closed_channel_no_side_effects_witness :
    sendText allCallbacksConfig initialClientState "hello" =
      ⟨Except.error "Data channel not open", initialClientState, [], []⟩ ∧
    sendToolResult (fun _ => "") initialClientState "call_1"
        (JsonValue.obj [("ok", JsonValue.bool true)]) =
      ⟨Except.error "Data channel not open", initialClientState, [], []⟩ :=
  send_closed_channel_no_side_effects allCallbacksConfig (fun _ => "")
    initialClientState "hello" "call_1" (JsonValue.obj [("ok", JsonValue.bool true)]) rfl

/-- C10: when the wire payload of an inbound data-channel message fails to
parse as JSON (the decoder returns `none`, modelling a thrown
`JSON.parse`), the `onmessage` handler catches it and returns: no callback
is invoked, no media operation happens, and the state is unchanged. -/
theorem malformed_json_noop (pj : String → Option JsonValue)
    (pm : String → Option InboundMessage) (cfg : Config) (s : ClientState)
    (data : String) (h : pm data = none) :
    onDataChannelMessage pj pm cfg s data = ⟨s, [], []⟩ := by
  simp [onDataChannelMessage, h]

/-- C10 witness: a decoder that always fails, applied on a live client. -/
theorem malformed_json_noop_witness :
    onDataChannelMessage (fun _ => none) (fun _ => none) allCallbacksConfig
      liveConnectedState "not valid json" =
      ⟨liveConnectedState, [], []⟩ :=
  malformed_json_noop (fun _ => none) (fun _ => none) allCallbacksConfig
    liveConnectedState "not valid json" rfl

/-- C9: an inbound message whose `type` is outside the recognized protocol
vocabulary matches no case of the dispatch switch: no callback is invoked,
no media operation happens, no exception is raised (the handler is total),
and the state is returned unchanged. -/
theorem unknown_type_noop (pj : String → Option JsonValue) (cfg : Config)
    (s : ClientState) (m : InboundMessage) (h : m.type ∉ recognizedTypes) :
    handleRealtimeMessage pj cfg s m = ⟨s, [], []⟩ := by
  simp [recognizedTypes] at h
  obtain ⟨h1, h2, h3, h4, h5, h6, h7, h8, h9, h10, h11, h12, h13, h14⟩ := h
  simp [handleRealtimeMessage, h1, h2, h3, h4, h5, h6, h7, h8, h9, h10, h11, h12,
        h13, h14]

/-- C9 witness: the unrecognized type `some.future.event` on a live client
with every callback configured. -/
theorem unknown_type_noop_witness :
    ("some.future.event" ∉ recognizedTypes) ∧
    handleRealtimeMessage (fun _ => none) allCallbacksConfig liveConnectedState
      (bareMessage "some.future.event") = ⟨liveConnectedState, [], []⟩ :=
  ⟨by decide,
   unknown_type_noop (fun _ => none) allCallbacksConfig liveConnectedState
     (bareMessage "some.future.event") (by decide)⟩

/-- C8: an inbound `response.function_call_arguments.done` carrying a truthy
`call_id` and `name`, with the tool-call callback configured, emits exactly
one `toolCall` invocation and changes nothing else; the handler is total (no
exception escapes — a throwing `JSON.parse` is the `pj _ = none` case), and
when the `arguments` field is absent or fails to parse, the arguments passed
to the callback are the empty object. -/
theorem toolcall_emitted_once_empty_fallback (pj : String → Option JsonValue)
    (cfg : Config) (s : ClientState) (m : InboundMessage)
    (hty : m.type = "response.function_call_arguments.done")
    (hcb : cfg.hasOnToolCall = true)
    (hcid : strTruthy m.callId = true)
    (hname : strTruthy m.name = true) :
    (handleRealtimeMessage pj cfg s m).callbacks =
      [CallbackEvent.toolCall (m.callId.getD "") (m.name.getD "")
        (toolArgs pj m.arguments)] ∧
    (handleRealtimeMessage pj cfg s m).state = s ∧
    (handleRealtimeMessage pj cfg s m).media = [] ∧
    (m.arguments = none → toolArgs pj m.arguments = JsonValue.obj []) ∧
    (∀ a, m.arguments = some a → pj a = none →
      toolArgs pj m.arguments = JsonValue.obj []) := by
  refine ⟨?_, ?_, ?_, ?_, ?_⟩
  · simp [handleRealtimeMessage, hty, hcb, hcid, hname]
  · simp [handleRealtimeMessage, hty, hcb, hcid, hname]
  · simp [handleRealtimeMessage, hty, hcb, hcid, hname]
  · intro ha; simp [toolArgs, ha]
  · intro a ha hpj
    simp only [toolArgs, ha]
    by_cases he : a.isEmpty <;> simp [he, hpj]

/-- C8 witness: a tool call whose `arguments` string is not parseable JSON
(the parse throws, i.e. returns `none`); the callback receives the empty
object. -/
theorem toolcall_emitted_once_empty_fallback_witness :
    (handleRealtimeMessage (fun _ => none) allCallbacksConfig liveConnectedState
      { bareMessage "response.function_call_arguments.done" with
        callId := some "call_1", name := some "get_weather",
        arguments := some "not valid json" }).callbacks =
      [CallbackEvent.toolCall "call_1" "get_weather"
        (toolArgs (fun _ => none) (some "not valid json"))] ∧
    (handleRealtimeMessage (fun _ => none) allCallbacksConfig liveConnectedState
      { bareMessage "response.function_call_arguments.done" with
        callId := some "call_1", name := some "get_weather",
        arguments := some "not valid json" }).state = liveConnectedState ∧
    toolArgs (fun _ => none) (some "not valid json") = JsonValue.obj [] :=
  let r := toolcall_emitted_once_empty_fallback (fun _ => none) allCallbacksConfig
    liveConnectedState
    { bareMessage "response.function_call_arguments.done" with
      callId := some "call_1", name := some "get_weather",
      arguments := some "not valid json" } rfl rfl rfl rfl
  ⟨r.1, r.2.1, r.2.2.2.2 "not valid json" rfl rfl⟩

/-- C5: on `response.cancelled` or `response.interrupted`, the handler
performs exactly pause / detach / reattach on the playback element (the same
live media source is put back), and changes nothing else: the resulting
state differs from the prior one only in the element's paused flag, so the
connection state, data channel and transport are untouched, and no callback
fires. -/
theorem interrupt_stops_playback_frame (pj : String → Option JsonValue)
    (cfg : Config) (s : ClientState) (m : InboundMessage)
    (el : AudioElement) (src : Nat)
    (hm : m.type = "response.cancelled" ∨ m.type = "response.interrupted")
    (hel : s.audioElement = some el)
    (hsrc : el.srcObject = some src) :
    (handleRealtimeMessage pj cfg s m).media =
      [MediaEffect.pauseAudio, MediaEffect.setSrcObject none,
       MediaEffect.setSrcObject (some src)] ∧
    (handleRealtimeMessage pj cfg s m).state =
      { s with audioElement := some { el with paused := true } } ∧
    (handleRealtimeMessage pj cfg s m).state.connectionState = s.connectionState ∧
    (handleRealtimeMessage pj cfg s m).state.dataChannel = s.dataChannel ∧
    (handleRealtimeMessage pj cfg s m).state.peerConnection = s.peerConnection ∧
    (handleRealtimeMessage pj cfg s m).state.localStream = s.localStream ∧
    (handleRealtimeMessage pj cfg s m).callbacks = [] := by
  obtain ⟨p, so, mu⟩ := el
  cases hsrc
  rcases hm with h | h <;>
    simp [handleRealtimeMessage, h, stopPlayback, hel]

/-- C5 witness: a `response.interrupted` event on a live connected client
whose playback element is attached to stream `7`. -/
theorem interrupt_stops_playback_frame_witness :
    (handleRealtimeMessage (fun _ => none) allCallbacksConfig liveConnectedState
      (bareMessage "response.interrupted")).media =
      [MediaEffect.pauseAudio, MediaEffect.setSrcObject none,
       MediaEffect.setSrcObject (some 7)] ∧
    (handleRealtimeMessage (fun _ => none) allCallbacksConfig liveConnectedState
      (bareMessage "response.interrupted")).state.connectionState =
      liveConnectedState.connectionState ∧
    (handleRealtimeMessage (fun _ => none) allCallbacksConfig liveConnectedState
      (bareMessage "response.interrupted")).state.dataChannel =
      liveConnectedState.dataChannel ∧
    (handleRealtimeMessage (fun _ => none) allCallbacksConfig liveConnectedState
      (bareMessage "response.interrupted")).callbacks = [] :=
  let r := interrupt_stops_playback_frame (fun _ => none) allCallbacksConfig
    liveConnectedState (bareMessage "response.interrupted")
    { paused := false, srcObject := some 7, muted := false } 7
    (Or.inr rfl) rfl rfl
  ⟨r.1, r.2.2.1, r.2.2.2.1, r.2.2.2.2.2.2⟩

/-- C1 counterexample: with every awaited step succeeding and no transport
callback having fired yet, `connect()` resolves (outcome `ok`) while the
session state is still `connecting`, not `connected`: the claim that the
promise resolves only after the session has reached `Connected` is false —
`connect` resolves upon local completion of the offer/answer exchange. -/
theorem connect_resolves_before_connected_cex :
    (connect allCallbacksConfig okEnv initialClientState none).outcome =
      Except.ok () ∧
    (connect allCallbacksConfig okEnv initialClientState none).state.connectionState =
      ConnectionState.connecting ∧
    ConnectionState.connecting ≠ ConnectionState.connected :=
  ⟨rfl, rfl, by decide⟩

/-- C1 amended: every successful `connect()` resolves upon local completion
of the offer/answer exchange with the state still `Connecting`; the
transition to `Connected` happens only afterwards, when the ICE
state-change handler reports `connected` or a session-created/updated event
arrives on the control channel. -/
theorem connect_success_resolves_while_connecting
    (cfg : Config) (env : ConnectEnv) (s : ClientState) (cid : Option String)
    (pj : String → Option JsonValue) (m : InboundMessage)
    (htok : env.tokenResult = Except.ok ())
    (hmic : ∃ sid, env.micResult = Except.ok sid)
    (hneg : ∃ a, env.negotiationResult = Except.ok a)
    (hm : m.type = "session.created" ∨ m.type = "session.updated") :
    (connect cfg env s cid).outcome = Except.ok () ∧
    (connect cfg env s cid).state.connectionState = ConnectionState.connecting ∧
    (onIceConnectionStateChange cfg (connect cfg env s cid).state
        (some "connected")).1.connectionState = ConnectionState.connected ∧
    (handleRealtimeMessage pj cfg (connect cfg env s cid).state m).state.connectionState =
      ConnectionState.connected := by
  obtain ⟨sid, hmic⟩ := hmic
  obtain ⟨a, hneg⟩ := hneg
  have hstate : (connect cfg env s cid).state.connectionState =
      ConnectionState.connecting ∧
      (connect cfg env s cid).outcome = Except.ok () := by
    unfold connect updateConnectionState setupAudioAnalysis
    rw [htok, hmic, hneg]
    dsimp only
    split_ifs <;> simp
  refine ⟨hstate.2, hstate.1, ?_, ?_⟩
  · simp [onIceConnectionStateChange, updateConnectionState]
  · rcases hm with h | h <;>
      simp [handleRealtimeMessage, h, hstate.1, updateConnectionState]

/-- C1 amended, witness: a fully successful environment, a `session.created`
message. -/
theorem connect_success_resolves_while_connecting_witness :
    (connect allCallbacksConfig okEnv initialClientState none).outcome =
      Except.ok () ∧
    (connect allCallbacksConfig okEnv initialClientState none).state.connectionState =
      ConnectionState.connecting ∧
    (onIceConnectionStateChange allCallbacksConfig
        (connect allCallbacksConfig okEnv initialClientState none).state
        (some "connected")).1.connectionState = ConnectionState.connected ∧
    (handleRealtimeMessage (fun _ => none) allCallbacksConfig
        (connect allCallbacksConfig okEnv initialClientState none).state
        (bareMessage "session.created")).state.connectionState =
      ConnectionState.connected :=
  connect_success_resolves_while_connecting allCallbacksConfig okEnv
    initialClientState none (fun _ => none) (bareMessage "session.created")
    rfl ⟨1, rfl⟩ ⟨"answer-sdp", rfl⟩ (Or.inl rfl)

/-- C2 counterexample: when the credential fetch throws, `connect()` rejects
with that error but the state afterwards is `disconnected`, not `error` —
the catch block runs `handleError` (which does not change state) and then
`disconnect()`, which ends in `disconnected`. -/
theorem connect_failure_state_not_error_cex :
    (connect allCallbacksConfig failTokenEnv initialClientState none).outcome =
      Except.error "Failed to fetch token: 500" ∧
    (connect allCallbacksConfig failTokenEnv initialClientState none).state.connectionState =
      ConnectionState.disconnected ∧
    ConnectionState.disconnected ≠ ConnectionState.error :=
  ⟨rfl, rfl, by decide⟩

/-- C2 amended: for every `connect()` call that rejects, all partially
acquired resources (microphone stream, transport, control channel, audio
context, playback element, sampling loop) have been released before the
rejection, and the state after the call rejects is `Disconnected` (the
triggering error having been surfaced through the error callback), not
`Error`. -/
theorem connect_failure_releases_and_disconnects
    (cfg : Config) (env : ConnectEnv) (s : ClientState) (cid : Option String)
    (e : String) (h : (connect cfg env s cid).outcome = Except.error e) :
    (connect cfg env s cid).state.connectionState = ConnectionState.disconnected ∧
    (connect cfg env s cid).state.localStream = none ∧
    (connect cfg env s cid).state.peerConnection = none ∧
    (connect cfg env s cid).state.dataChannel = none ∧
    (connect cfg env s cid).state.audioContext = none ∧
    (connect cfg env s cid).state.audioElement = none ∧
    (connect cfg env s cid).state.animationFrameId = none := by
  obtain ⟨tok, mic, acid, iaid, fid, pcid, dcid, sdp, neg⟩ := env
  cases tok with
  | error e1 =>
    simp only [connect, connectFail]
    exact disconnect_releases cfg _
  | ok u =>
    cases u
    cases mic with
    | error e2 =>
      simp only [connect, connectFail]
      exact disconnect_releases cfg _
    | ok sid =>
      cases neg with
      | error status =>
        simp only [connect, connectFail]
        exact disconnect_releases cfg _
      | ok a =>
        exact absurd h (by simp [connect])

/-- C2 amended, witness: the failing credential fetch. -/
theorem connect_failure_releases_and_disconnects_witness :
    (connect allCallbacksConfig failTokenEnv initialClientState none).state.connectionState =
      ConnectionState.disconnected ∧
    (connect allCallbacksConfig failTokenEnv initialClientState none).state.localStream =
      none ∧
    (connect allCallbacksConfig failTokenEnv initialClientState none).state.peerConnection =
      none ∧
    (connect allCallbacksConfig failTokenEnv initialClientState none).state.dataChannel =
      none ∧
    (connect allCallbacksConfig failTokenEnv initialClientState none).state.audioContext =
      none ∧
    (connect allCallbacksConfig failTokenEnv initialClientState none).state.audioElement =
      none ∧
    (connect allCallbacksConfig failTokenEnv initialClientState none).state.animationFrameId =
      none :=
  connect_failure_releases_and_disconnects allCallbacksConfig failTokenEnv
    initialClientState none "Failed to fetch token: 500" rfl

/-- C3: evaluated on a manager already in state `connected` with a live
transport (id `1`), a further `connect()` call is neither rejected nor a
no-op: it performs the full effect sequence — fetching a new token,
re-acquiring the microphone, constructing a second transport (id `2`) and a
second data channel — and overwrites the live session's transport handle. -/
theorem connect_while_connected_builds_second_transport :
    liveConnectedState.connectionState = ConnectionState.connected ∧
    liveConnectedState.peerConnection = some 1 ∧
    (connect allCallbacksConfig okEnv liveConnectedState none).effects =
      [ConnectEffect.fetchToken, ConnectEffect.getUserMedia,
       ConnectEffect.newPeerConnection 2, ConnectEffect.createDataChannel 5,
       ConnectEffect.postOffer "offer-sdp",
       ConnectEffect.setRemoteDescription "answer-sdp"] ∧
    (connect allCallbacksConfig okEnv liveConnectedState none).state.peerConnection =
      some 2 ∧
    (connect allCallbacksConfig okEnv liveConnectedState none).outcome =
      Except.ok () :=
  ⟨rfl, rfl, rfl, rfl, rfl⟩

end RealtimeVoice
